import Mathlib

/-!
Shallow embedding of the SecureOTP core logic.

The embedding follows two source files:

* `src/services/otpManager.ts` — the `OtpManager` class: a `Map<string,
  OtpRecord>` keyed by email, with `generateOtp`, `validateOtp`,
  `getRemainingSeconds`, `getRemainingAttempts` and `clearOtp`.
  The store is modelled as `String → Option OtpRecord`; each method that
  mutates the map is a function from the store to a result paired with the
  new store.  `Date.now()` is modelled by an explicit `now : Int`
  parameter (milliseconds); JavaScript number subtraction on timestamps is
  integer subtraction in the relevant range, so `Int` arithmetic is
  faithful.  `Math.random()` inside `createRandomCode` is modelled by an
  explicit `raw : Nat` draw (the value of `Math.floor(Math.random() * 10^6)`).

* `src/hooks/useSessionTimer.ts` — the session-timer hook: `formatElapsed`,
  `tick`, `startTimer`, `stopTimer`.  The hook state (the `elapsed` string
  state, the `sessionStartRef` and `intervalRef` refs) is a `TimerState`
  record; external side effects (AsyncStorage persistence through
  `analyticsService`, interval creation/cancellation) are reified as a list
  of `Effect`s emitted by each operation.
-/

namespace SecureOTP

/-! ### Constants (`otpManager.ts` lines 15–24) -/

/-- Length of the generated OTP code (`OTP_LENGTH = 6`). -/
def OTP_LENGTH : Nat := 6

/-- OTP validity window in milliseconds (`OTP_EXPIRY_MS = 60 * 1000`). -/
def OTP_EXPIRY_MS : Int := 60 * 1000

/-- Maximum incorrect attempts before the OTP is locked (`MAX_ATTEMPTS = 3`). -/
def MAX_ATTEMPTS : Nat := 3

/-! ### Data model (`types/auth.ts`) -/

/-- `OtpRecord` from `types/auth.ts`: the stored state of an OTP issued to a
specific email.  `code` is the 6-digit code string, `createdAt` the epoch
timestamp in ms, `attempts` the number of failed verification attempts. -/
structure OtpRecord where
  code : String
  createdAt : Int
  attempts : Nat
  deriving Repr, DecidableEq

/-- `OtpValidationResult` from `types/auth.ts`, flattened: `{success: true}`
is `success`; `{success: false, reason}` is the constructor named by the
reason.  These are the only five values the type admits. -/
inductive Outcome where
  | success
  | expired
  | incorrect
  | max_attempts
  | no_otp
  deriving Repr, DecidableEq

/-- The private `store: Map<string, OtpRecord>` of `OtpManager`, as a
partial map from email to record. -/
def Store : Type := String → Option OtpRecord

/-- A fresh `OtpManager` holds an empty map. -/
def Store.empty : Store := fun _ => none

/-- `this.store.set(email, record)`. -/
def Store.set (s : Store) (email : String) (r : OtpRecord) : Store :=
  fun k => if k = email then some r else s k

/-- `this.store.delete(email)`. -/
def Store.del (s : Store) (email : String) : Store :=
  fun k => if k = email then none else s k

/-- `this.store.get(email)`. -/
def Store.get (s : Store) (email : String) : Option OtpRecord := s email

/-! ### `OtpManager` methods -/

/-- `String.prototype.trim()` as used by `validateOtp` on the candidate
code: strips whitespace characters from both ends of the string (leading
and trailing runs of whitespace are removed, interior characters are
untouched). -/
def jsTrim (s : String) : String :=
  String.mk
    (((s.data.dropWhile Char.isWhitespace).reverse.dropWhile
      Char.isWhitespace).reverse)

/-- Two-or-more-digit left zero padding: `String.prototype.padStart(n, '0')`
as used by `createRandomCode` (n = 6) and `formatElapsed` (n = 2). -/
def padStartZero (n : Nat) (s : String) : String :=
  if s.length < n then String.mk (List.replicate (n - s.length) '0') ++ s
  else s

/-- `createRandomCode` (`otpManager.ts` lines 138–142) with the random draw
`raw = Math.floor(Math.random() * 10^OTP_LENGTH)` made explicit:
`raw.toString().padStart(OTP_LENGTH, '0')`. -/
def createRandomCode (raw : Nat) : String :=
  padStartZero OTP_LENGTH (toString raw)

/-- `generateOtp(email)` (`otpManager.ts` lines 45–55), with the random draw
`raw` and the clock `now` made explicit.  Builds a fresh record with
`attempts = 0` and `createdAt = now`, overwrites any previous record for
`email`, and returns the code together with the new store. -/
def generateOtp (raw : Nat) (now : Int) (email : String) (s : Store) :
    String × Store :=
  let code := createRandomCode raw
  let record : OtpRecord := ⟨code, now, 0⟩
  (code, s.set email record)

/-- `validateOtp(email, code)` (`otpManager.ts` lines 66–100), with the
clock `now` explicit.  Returns the outcome together with the store after
the call (the record may be deleted or its `attempts` field incremented
in place). -/
def validateOtp (now : Int) (email code : String) (s : Store) :
    Outcome × Store :=
  match s.get email with
  | none => (Outcome.no_otp, s)
  | some record =>
    if now - record.createdAt > OTP_EXPIRY_MS then
      (Outcome.expired, s.del email)
    else if record.attempts ≥ MAX_ATTEMPTS then
      (Outcome.max_attempts, s)
    else if record.code ≠ jsTrim code then
      let record2 : OtpRecord := ⟨record.code, record.createdAt, record.attempts + 1⟩
      if record2.attempts ≥ MAX_ATTEMPTS then
        (Outcome.max_attempts, s.set email record2)
      else
        (Outcome.incorrect, s.set email record2)
    else
      (Outcome.success, s.del email)

/-- `getRemainingSeconds(email)` (`otpManager.ts` lines 107–114), with the
clock `now` explicit.  `Math.ceil(remaining / 1000)` is the ceiling of the
exact rational quotient.  The method only reads the map, so the store it
returns is the one it was given. -/
def getRemainingSeconds (now : Int) (email : String) (s : Store) :
    Int × Store :=
  match s.get email with
  | none => (0, s)
  | some record =>
    let elapsed := now - record.createdAt
    let remaining := OTP_EXPIRY_MS - elapsed
    (if remaining > 0 then ⌈(remaining : ℚ) / 1000⌉ else 0, s)

/-- `getRemainingAttempts(email)` (`otpManager.ts` lines 119–123):
`Math.max(0, MAX_ATTEMPTS - record.attempts)`, or 0 with no record.  Only
reads the map. -/
def getRemainingAttempts (email : String) (s : Store) : Int × Store :=
  match s.get email with
  | none => (0, s)
  | some record => (max 0 ((MAX_ATTEMPTS : Int) - (record.attempts : Int)), s)

/-- `clearOtp(email)` (`otpManager.ts` lines 128–130). -/
def clearOtp (email : String) (s : Store) : Store :=
  s.del email

/-! ### Session timer (`hooks/useSessionTimer.ts`) -/

/-- `formatElapsed` (`useSessionTimer.ts` lines 38–43):
`totalSeconds = Math.floor(ms / 1000)`, `minutes = Math.floor(totalSeconds
/ 60)`, `seconds = totalSeconds % 60`, each of the latter two rendered with
`toString().padStart(2, '0')` and joined by a colon.  `Math.floor` of an
exact quotient is the rational floor; the JavaScript `%` operator is
truncated remainder (`Int.tmod`). -/
def formatElapsed (ms : Int) : String :=
  let totalSeconds : Int := ⌊(ms : ℚ) / 1000⌋
  let minutes : Int := ⌊(totalSeconds : ℚ) / 60⌋
  let seconds : Int := Int.tmod totalSeconds 60
  padStartZero 2 (toString minutes) ++ ":" ++ padStartZero 2 (toString seconds)

/-- State of the `useSessionTimer` hook: the `elapsed` React state string,
the `sessionStartRef` ref (epoch ms of the session anchor, or `none`), and
the `intervalRef` ref (the periodic task handle, or `none`). -/
structure TimerState where
  elapsed : String
  sessionStart : Option Int
  interval : Option Nat
  deriving Repr, DecidableEq

/-- The hook's initial state: `useState('00:00')` and both refs `null`. -/
def TimerState.init : TimerState := ⟨"00:00", none, none⟩

/-- External side effects of the timer operations, reified: the
fire-and-forget AsyncStorage writes through `analyticsService`
(`saveSessionStart`, `clearSession`) and the scheduler calls
(`setInterval` creating a periodic task handle, `clearInterval`
cancelling one). -/
inductive Effect where
  | saveSessionStart (t : Int)
  | clearSession
  | setIntervalTick (handle : Nat)
  | cancelInterval (handle : Nat)
  deriving Repr, DecidableEq

/-- `tick` (`useSessionTimer.ts` lines 70–74): with no anchor do nothing,
otherwise recompute `elapsed` from `Date.now() - sessionStartRef.current`. -/
def tick (now : Int) (st : TimerState) : TimerState :=
  match st.sessionStart with
  | none => st
  | some start => ⟨formatElapsed (now - start), st.sessionStart, st.interval⟩

/-- `startTimer(persistedStart?)` (`useSessionTimer.ts` lines 78–96), with
the clock `now` and the handle the scheduler would assign (`newHandle`)
explicit.  If an interval is already running it returns immediately
(`if (intervalRef.current) return`) with no state change and no effect.
Otherwise it anchors at `persistedStart ?? now`, persists the anchor,
runs an immediate `tick`, and installs the periodic task. -/
def startTimer (now : Int) (persistedStart : Option Int) (newHandle : Nat)
    (st : TimerState) : TimerState × List Effect :=
  if st.interval.isSome then (st, [])
  else
    let start := persistedStart.getD now
    let st1 : TimerState := ⟨st.elapsed, some start, st.interval⟩
    let st2 := tick now st1
    let st3 : TimerState := ⟨st2.elapsed, st2.sessionStart, some newHandle⟩
    (st3, [Effect.saveSessionStart start, Effect.setIntervalTick newHandle])

/-- `stopTimer()` (`useSessionTimer.ts` lines 98–108): cancel the interval
if one is running, clear the anchor, reset the display to `'00:00'`, and
request deletion of the persisted anchor. -/
def stopTimer (st : TimerState) : TimerState × List Effect :=
  match st.interval with
  | some h =>
    (⟨"00:00", none, none⟩, [Effect.cancelInterval h, Effect.clearSession])
  | none =>
    (⟨"00:00", none, none⟩, [Effect.clearSession])

/-! ### Spec-side comparison definitions -/

/-- The spec's formula for `remaining_seconds`, written from its words:
`0` if no record or already expired; otherwise ceiling of
`(expiry_window - (now - createdAt)) / 1000`. -/
def remainingSecondsSpec (now : Int) (o : Option OtpRecord) : Int :=
  match o with
  | none => 0
  | some r =>
    if now - r.createdAt > OTP_EXPIRY_MS then 0
    else ⌈((OTP_EXPIRY_MS - (now - r.createdAt) : Int) : ℚ) / 1000⌉

/-- The spec's formula for the elapsed display, written from its words:
minutes and seconds derived from the floor of elapsed milliseconds to
whole seconds, each two-digit zero-padded, joined by a colon.  Stated on
`Nat` milliseconds (an elapsed duration), where division and modulus are
the floor forms. -/
def elapsedDisplaySpec (ms : Nat) : String :=
  padStartZero 2 (toString (ms / 1000 / 60)) ++ ":" ++
    padStartZero 2 (toString (ms / 1000 % 60))

/-- The store invariant of claim C10: every record held in the store has
an attempt counter between 0 and `MAX_ATTEMPTS`. -/
def StoreInv (s : Store) : Prop :=
  ∀ e r, s.get e = some r → 0 ≤ r.attempts ∧ r.attempts ≤ MAX_ATTEMPTS

/-! ### Helper lemmas -/

theorem floor_ratDiv_thousand (a : Int) : ⌊(a : ℚ) / 1000⌋ = a / 1000 := by
  have h := Rat.floor_intCast_div_natCast a 1000
  push_cast at h
  exact h

theorem floor_ratDiv_sixty (a : Int) : ⌊(a : ℚ) / 60⌋ = a / 60 := by
  have h := Rat.floor_intCast_div_natCast a 60
  push_cast at h
  exact h

theorem ceil_ratDiv_thousand (a : Int) : ⌈(a : ℚ) / 1000⌉ = -(-a / 1000) := by
  have h := floor_ratDiv_thousand (-a)
  push_cast at h
  rw [neg_div, Int.floor_neg] at h
  omega

theorem digitChar_isWhitespace (n : Nat) :
    (Nat.digitChar n).isWhitespace = false := by
  by_cases h : n < 16
  · interval_cases n <;> decide
  · push_neg at h
    unfold Nat.digitChar
    repeat rw [if_neg (by omega)]
    decide

theorem toDigitsCore_isWhitespace (b : Nat) :
    ∀ (f n : Nat) (l : List Char),
      (∀ c ∈ l, c.isWhitespace = false) →
      ∀ c ∈ Nat.toDigitsCore b f n l, c.isWhitespace = false := by
  intro f
  induction f with
  | zero => intro n l hl; simpa [Nat.toDigitsCore] using hl
  | succ f ih =>
    intro n l hl c hc
    simp only [Nat.toDigitsCore] at hc
    have hcons : ∀ x ∈ Nat.digitChar (n % b) :: l, x.isWhitespace = false := by
      intro x hx
      rcases List.mem_cons.mp hx with hx | hx
      · subst hx; exact digitChar_isWhitespace _
      · exact hl x hx
    split at hc
    · exact hcons c hc
    · exact ih (n / b) _ hcons c hc

theorem toString_nat_isWhitespace (n : Nat) :
    ∀ c ∈ (toString n).data, c.isWhitespace = false := by
  intro c hc
  have h : (toString n).data = Nat.toDigitsCore 10 (n + 1) n [] := rfl
  rw [h] at hc
  exact toDigitsCore_isWhitespace 10 (n + 1) n [] (by intro x hx; cases hx) c hc

theorem createRandomCode_isWhitespace (raw : Nat) :
    ∀ c ∈ (createRandomCode raw).data, c.isWhitespace = false := by
  intro c hc
  unfold createRandomCode padStartZero at hc
  split at hc
  · have h : (String.mk (List.replicate (OTP_LENGTH - (toString raw).length) '0') ++
        toString raw).data =
        List.replicate (OTP_LENGTH - (toString raw).length) '0' ++ (toString raw).data := rfl
    rw [h] at hc
    rcases List.mem_append.mp hc with hc | hc
    · rw [List.eq_of_mem_replicate hc]; decide
    · exact toString_nat_isWhitespace raw c hc
  · exact toString_nat_isWhitespace raw c hc

theorem dropWhile_eq_self_of_all_false {p : Char → Bool} :
    ∀ (l : List Char), (∀ c ∈ l, p c = false) → l.dropWhile p = l := by
  intro l hl
  cases l with
  | nil => rfl
  | cons c t => simp [List.dropWhile, hl c (List.mem_cons_self c t)]

theorem jsTrim_eq_self_of_no_whitespace (s : String)
    (hs : ∀ c ∈ s.data, c.isWhitespace = false) : jsTrim s = s := by
  unfold jsTrim
  rw [dropWhile_eq_self_of_all_false s.data hs]
  rw [dropWhile_eq_self_of_all_false s.data.reverse
    (by intro c hc; exact hs c (List.mem_reverse.mp hc))]
  rw [List.reverse_reverse]

theorem jsTrim_createRandomCode (raw : Nat) :
    jsTrim (createRandomCode raw) = createRandomCode raw :=
  jsTrim_eq_self_of_no_whitespace _ (createRandomCode_isWhitespace raw)

theorem createRandomCode_length (raw : Nat) :
    OTP_LENGTH ≤ (createRandomCode raw).length := by
  unfold createRandomCode padStartZero
  split
  · rw [String.length_append, String.length_mk, List.length_replicate]
    omega
  · omega

theorem createRandomCode_ne_empty (raw : Nat) : createRandomCode raw ≠ "" := by
  intro h
  have h6 := createRandomCode_length raw
  rw [h] at h6
  simp [OTP_LENGTH] at h6

theorem Store.get_set_self (s : Store) (e : String) (r : OtpRecord) :
    (s.set e r).get e = some r := by
  simp [Store.set, Store.get]

theorem Store.get_del_self (s : Store) (e : String) :
    (s.del e).get e = none := by
  simp [Store.del, Store.get]

/-- Branch 1 of `validateOtp`: no record on file. -/
theorem validateOtp_no_record (now : Int) (email code : String) (s : Store)
    (h : s.get email = none) :
    validateOtp now email code s = (Outcome.no_otp, s) := by
  unfold validateOtp
  simp only [h]

/-- Branch 2 of `validateOtp`: the record is older than the expiry window. -/
theorem validateOtp_of_expired (now : Int) (email code : String) (s : Store)
    (r : OtpRecord) (h : s.get email = some r)
    (hexp : now - r.createdAt > OTP_EXPIRY_MS) :
    validateOtp now email code s = (Outcome.expired, s.del email) := by
  unfold validateOtp
  simp only [h]
  rw [if_pos hexp]

/-- Branch 3 of `validateOtp`: the attempt budget is already exhausted. -/
theorem validateOtp_of_locked (now : Int) (email code : String) (s : Store)
    (r : OtpRecord) (h : s.get email = some r)
    (hexp : ¬ now - r.createdAt > OTP_EXPIRY_MS)
    (hatt : r.attempts ≥ MAX_ATTEMPTS) :
    validateOtp now email code s = (Outcome.max_attempts, s) := by
  unfold validateOtp
  simp only [h]
  rw [if_neg hexp, if_pos hatt]

/-- Branch 4 of `validateOtp`: the trimmed candidate does not match. -/
theorem validateOtp_of_wrong (now : Int) (email code : String) (s : Store)
    (r : OtpRecord) (h : s.get email = some r)
    (hexp : ¬ now - r.createdAt > OTP_EXPIRY_MS)
    (hatt : r.attempts < MAX_ATTEMPTS)
    (hw : r.code ≠ jsTrim code) :
    validateOtp now email code s =
      ((if r.attempts + 1 ≥ MAX_ATTEMPTS then Outcome.max_attempts
        else Outcome.incorrect),
        s.set email ⟨r.code, r.createdAt, r.attempts + 1⟩) := by
  unfold validateOtp
  simp only [h]
  rw [if_neg hexp, if_neg (by omega : ¬ r.attempts ≥ MAX_ATTEMPTS), if_pos hw]
  split <;> rfl

/-- Branch 5 of `validateOtp`: the trimmed candidate matches. -/
theorem validateOtp_of_correct (now : Int) (email code : String) (s : Store)
    (r : OtpRecord) (h : s.get email = some r)
    (hexp : ¬ now - r.createdAt > OTP_EXPIRY_MS)
    (hatt : r.attempts < MAX_ATTEMPTS)
    (hc : r.code = jsTrim code) :
    validateOtp now email code s = (Outcome.success, s.del email) := by
  unfold validateOtp
  simp only [h]
  rw [if_neg hexp, if_neg (by omega : ¬ r.attempts ≥ MAX_ATTEMPTS),
    if_neg (not_not_intro hc)]

/-! ### Claim theorems -/

/-- Claim C1: when a stored record is simultaneously expired (now − createdAt
exceeds 60,000 ms) and locked (attempts ≥ 3), `validateOtp` returns `expired`
(not `max_attempts`) and deletes the record, because the expiry check is
performed before the attempt-count check; and the attempt-count check precedes
the code comparison, so a locked, unexpired record yields `max_attempts` for
every candidate, the correct code included. -/
theorem claim_C1_expiry_checked_first (now : Int) (email cand : String)
    (s : Store) (r : OtpRecord) (h : s.get email = some r)
    (hexp : now - r.createdAt > OTP_EXPIRY_MS)
    (hlock : r.attempts ≥ MAX_ATTEMPTS) :
    validateOtp now email cand s = (Outcome.expired, s.del email) ∧
      (s.del email).get email = none ∧
      (∀ cand2, validateOtp r.createdAt email cand2 s = (Outcome.max_attempts, s)) := by
  refine ⟨validateOtp_of_expired now email cand s r h hexp, Store.get_del_self s email, ?_⟩
  intro cand2
  exact validateOtp_of_locked r.createdAt email cand2 s r h
    (by unfold OTP_EXPIRY_MS; omega) hlock

theorem claim_C1_witness :
    ((70000 : Int) - (0 : Int) > OTP_EXPIRY_MS ∧ (3 : Nat) ≥ MAX_ATTEMPTS) ∧
    validateOtp 70000 "a@x.com" "123456"
        (Store.set Store.empty "a@x.com" ⟨"123456", 0, 3⟩) =
      (Outcome.expired,
        Store.del (Store.set Store.empty "a@x.com" ⟨"123456", 0, 3⟩) "a@x.com") ∧
    validateOtp 0 "a@x.com" "123456"
        (Store.set Store.empty "a@x.com" ⟨"123456", 0, 3⟩) =
      (Outcome.max_attempts, Store.set Store.empty "a@x.com" ⟨"123456", 0, 3⟩) := by
  have h := claim_C1_expiry_checked_first 70000 "a@x.com" "123456"
    (Store.set Store.empty "a@x.com" ⟨"123456", 0, 3⟩) ⟨"123456", 0, 3⟩
    (by decide) (by decide) (by decide)
  exact ⟨⟨by decide, by decide⟩, h.1, h.2.2 "123456"⟩

/-- Claim C2: starting from a fresh record (attempts = 0, not expired), three
consecutive `validateOtp` calls with a wrong code return `incorrect`,
`incorrect`, `max_attempts` in that order (the threshold-crossing attempt
reports the lock, not the mismatch); the store then holds the record with
attempts = 3, and a fourth wrong-code call returns `max_attempts` while
leaving the store — hence the attempts counter — unchanged. -/
theorem claim_C2_lockout_sequence (now : Int) (email w : String) (s : Store)
    (r : OtpRecord) (h : s.get email = some r) (h0 : r.attempts = 0)
    (hfresh : ¬ now - r.createdAt > OTP_EXPIRY_MS)
    (hw : r.code ≠ jsTrim w) :
    let s1 := (validateOtp now email w s).2
    let s2 := (validateOtp now email w s1).2
    let s3 := (validateOtp now email w s2).2
    (validateOtp now email w s).1 = Outcome.incorrect ∧
    (validateOtp now email w s1).1 = Outcome.incorrect ∧
    (validateOtp now email w s2).1 = Outcome.max_attempts ∧
    s3.get email = some ⟨r.code, r.createdAt, 3⟩ ∧
    validateOtp now email w s3 = (Outcome.max_attempts, s3) := by
  intro s1 s2 s3
  have e1 := validateOtp_of_wrong now email w s r h hfresh (by rw [h0]; decide) hw
  rw [h0] at e1
  rw [if_neg (by decide : ¬ 0 + 1 ≥ MAX_ATTEMPTS)] at e1
  have hs1 : s1 = s.set email ⟨r.code, r.createdAt, 0 + 1⟩ := by
    show (validateOtp now email w s).2 = _
    rw [e1]
  have g1 : s1.get email = some ⟨r.code, r.createdAt, 0 + 1⟩ := by
    rw [hs1]; exact Store.get_set_self s email _
  have e2 := validateOtp_of_wrong now email w s1 ⟨r.code, r.createdAt, 0 + 1⟩ g1
    hfresh (by show 0 + 1 < MAX_ATTEMPTS; decide) hw
  rw [if_neg (by decide : ¬ 0 + 1 + 1 ≥ MAX_ATTEMPTS)] at e2
  have hs2 : s2 = s1.set email ⟨r.code, r.createdAt, 0 + 1 + 1⟩ := by
    show (validateOtp now email w s1).2 = _
    rw [e2]
  have g2 : s2.get email = some ⟨r.code, r.createdAt, 0 + 1 + 1⟩ := by
    rw [hs2]; exact Store.get_set_self s1 email _
  have e3 := validateOtp_of_wrong now email w s2 ⟨r.code, r.createdAt, 0 + 1 + 1⟩ g2
    hfresh (by show 0 + 1 + 1 < MAX_ATTEMPTS; decide) hw
  rw [if_pos (by decide : 0 + 1 + 1 + 1 ≥ MAX_ATTEMPTS)] at e3
  have hs3 : s3 = s2.set email ⟨r.code, r.createdAt, 0 + 1 + 1 + 1⟩ := by
    show (validateOtp now email w s2).2 = _
    rw [e3]
  have g3 : s3.get email = some ⟨r.code, r.createdAt, 0 + 1 + 1 + 1⟩ := by
    rw [hs3]; exact Store.get_set_self s2 email _
  have e4 := validateOtp_of_locked now email w s3 ⟨r.code, r.createdAt, 0 + 1 + 1 + 1⟩ g3
    hfresh (by show 0 + 1 + 1 + 1 ≥ MAX_ATTEMPTS; decide)
  refine ⟨by rw [e1], by rw [e2], by rw [e3], by rw [g3], e4⟩

theorem claim_C2_witness :
    ((Store.set Store.empty "a@x.com" ⟨"123456", 0, 0⟩).get "a@x.com" =
        some ⟨"123456", 0, 0⟩ ∧
      ¬ (5000 : Int) - (0 : Int) > OTP_EXPIRY_MS ∧
      ("123456" : String) ≠ jsTrim "000000") ∧
    (validateOtp 5000 "a@x.com" "000000"
      (Store.set Store.empty "a@x.com" ⟨"123456", 0, 0⟩)).1 = Outcome.incorrect := by
  have h := claim_C2_lockout_sequence 5000 "a@x.com" "000000"
    (Store.set Store.empty "a@x.com" ⟨"123456", 0, 0⟩) ⟨"123456", 0, 0⟩
    (by decide) (by decide) (by decide) (by decide)
  exact ⟨⟨by decide, by decide, by decide⟩, h.1⟩

/-- Claim C3: for a generated record (its code is some `createRandomCode`
draw), `validateOtp` with the exact stored code before expiry and within the
attempt budget returns `success` and deletes the record, and an immediately
repeated `validateOtp` with the same code returns `no_otp` (single use). -/
theorem claim_C3_single_use (now now2 : Int) (email : String) (s : Store)
    (r : OtpRecord) (raw : Nat) (h : s.get email = some r)
    (hcode : r.code = createRandomCode raw)
    (hfresh : ¬ now - r.createdAt > OTP_EXPIRY_MS)
    (hatt : r.attempts < MAX_ATTEMPTS) :
    validateOtp now email r.code s = (Outcome.success, s.del email) ∧
    (validateOtp now2 email r.code (validateOtp now email r.code s).2).1 =
      Outcome.no_otp := by
  have hc : r.code = jsTrim r.code := by
    conv_lhs => rw [hcode]
    rw [hcode, jsTrim_createRandomCode]
  have e1 := validateOtp_of_correct now email r.code s r h hfresh hatt hc
  refine ⟨e1, ?_⟩
  rw [e1, validateOtp_no_record now2 email r.code (s.del email) (Store.get_del_self s email)]

theorem claim_C3_witness :
    ((Store.set Store.empty "a@x.com" ⟨"123456", 0, 0⟩).get "a@x.com" =
        some ⟨"123456", 0, 0⟩ ∧
      ("123456" : String) = createRandomCode 123456 ∧
      ¬ (5000 : Int) - (0 : Int) > OTP_EXPIRY_MS ∧ (0 : Nat) < MAX_ATTEMPTS) ∧
    validateOtp 5000 "a@x.com" "123456"
        (Store.set Store.empty "a@x.com" ⟨"123456", 0, 0⟩) =
      (Outcome.success,
        Store.del (Store.set Store.empty "a@x.com" ⟨"123456", 0, 0⟩) "a@x.com") ∧
    (validateOtp 9000 "a@x.com" "123456"
        (validateOtp 5000 "a@x.com" "123456"
          (Store.set Store.empty "a@x.com" ⟨"123456", 0, 0⟩)).2).1 = Outcome.no_otp := by
  have h := claim_C3_single_use 5000 9000 "a@x.com"
    (Store.set Store.empty "a@x.com" ⟨"123456", 0, 0⟩) ⟨"123456", 0, 0⟩ 123456
    (by decide) (by decide) (by decide) (by decide)
  exact ⟨⟨by decide, by decide, by decide, by decide⟩, h.1, h.2⟩

/-- Claim C4 counterexample: a record whose `createdAt` lies exactly
60,000 ms in the past — "at least 60,000 ms" per the claim — is NOT treated
as expired: the code's expiry test is strict (`now - createdAt >
OTP_EXPIRY_MS`), so at the boundary a correct candidate yields `success`,
not the `expired` the claim requires. -/
theorem claim_C4_counterexample :
    ((60000 : Int) - (0 : Int) ≥ 60000) ∧
    (validateOtp 60000 "a@x.com" "123456"
      (Store.set Store.empty "a@x.com" ⟨"123456", 0, 0⟩)).1 = Outcome.success ∧
    Outcome.success ≠ Outcome.expired := by decide

/-- Claim C4 amended: for every record whose `createdAt` lies MORE than
60,000 ms in the past at validation time, `validateOtp` with any candidate —
the correct code included — returns `expired` and removes the record, so a
subsequent `validateOtp` on that identity returns `no_otp`. -/
theorem claim_C4_amended (now now2 : Int) (email cand cand2 : String) (s : Store)
    (r : OtpRecord) (h : s.get email = some r)
    (hexp : now - r.createdAt > OTP_EXPIRY_MS) :
    validateOtp now email cand s = (Outcome.expired, s.del email) ∧
    (validateOtp now2 email cand2 (validateOtp now email cand s).2).1 =
      Outcome.no_otp := by
  have e := validateOtp_of_expired now email cand s r h hexp
  refine ⟨e, ?_⟩
  rw [e, validateOtp_no_record now2 email cand2 (s.del email) (Store.get_del_self s email)]

theorem claim_C4_amended_witness :
    ((Store.set Store.empty "a@x.com" ⟨"123456", 0, 0⟩).get "a@x.com" =
        some ⟨"123456", 0, 0⟩ ∧
      (60001 : Int) - (0 : Int) > OTP_EXPIRY_MS) ∧
    validateOtp 60001 "a@x.com" "123456"
        (Store.set Store.empty "a@x.com" ⟨"123456", 0, 0⟩) =
      (Outcome.expired,
        Store.del (Store.set Store.empty "a@x.com" ⟨"123456", 0, 0⟩) "a@x.com") ∧
    (validateOtp 70000 "a@x.com" "123456"
        (validateOtp 60001 "a@x.com" "123456"
          (Store.set Store.empty "a@x.com" ⟨"123456", 0, 0⟩)).2).1 = Outcome.no_otp := by
  have h := claim_C4_amended 60001 70000 "a@x.com" "123456" "123456"
    (Store.set Store.empty "a@x.com" ⟨"123456", 0, 0⟩) ⟨"123456", 0, 0⟩
    (by decide) (by decide)
  exact ⟨⟨by decide, by decide⟩, h.1, h.2⟩

/-- Claim C5 counterexample: if the second `generateOtp` call happens to draw
the same random code as the first (both draws are 123456 here), validating
the code returned by the first call after the second call returns `success`,
so the second generate does not always invalidate the first code. -/
theorem claim_C5_counterexample :
    (validateOtp 6000 "a@x.com" (generateOtp 123456 0 "a@x.com" Store.empty).1
      (generateOtp 123456 5000 "a@x.com"
        (generateOtp 123456 0 "a@x.com" Store.empty).2).2).1 = Outcome.success := by
  decide

/-- Claim C5 amended: calling `generateOtp` twice for the same identity
invalidates the first code provided the two calls draw different code
strings: validating the first code after the second call then never returns
`success` (the new record unconditionally replaces the old one). -/
theorem claim_C5_amended (raw1 raw2 : Nat) (now1 now2 now3 : Int) (email : String)
    (s : Store) (hne : createRandomCode raw1 ≠ createRandomCode raw2) :
    (validateOtp now3 email (generateOtp raw1 now1 email s).1
      (generateOtp raw2 now2 email (generateOtp raw1 now1 email s).2).2).1 ≠
      Outcome.success := by
  have hg1 : (generateOtp raw1 now1 email s).1 = createRandomCode raw1 := rfl
  rw [hg1]
  have hget : ((generateOtp raw2 now2 email (generateOtp raw1 now1 email s).2).2).get
      email = some ⟨createRandomCode raw2, now2, 0⟩ :=
    Store.get_set_self _ email _
  by_cases hexp : now3 - now2 > OTP_EXPIRY_MS
  · have e := validateOtp_of_expired now3 email (createRandomCode raw1) _
      ⟨createRandomCode raw2, now2, 0⟩ hget hexp
    rw [e]
    exact fun hc => Outcome.noConfusion hc
  · have hw : createRandomCode raw2 ≠ jsTrim (createRandomCode raw1) := by
      rw [jsTrim_createRandomCode]
      exact Ne.symm hne
    have e := validateOtp_of_wrong now3 email (createRandomCode raw1) _
      ⟨createRandomCode raw2, now2, 0⟩ hget hexp
      (by show (0 : Nat) < MAX_ATTEMPTS; decide) hw
    rw [if_neg (by decide : ¬ 0 + 1 ≥ MAX_ATTEMPTS)] at e
    rw [e]
    exact fun hc => Outcome.noConfusion hc

theorem claim_C5_amended_witness :
    createRandomCode 123456 ≠ createRandomCode 654321 ∧
    (validateOtp 6000 "a@x.com" (generateOtp 123456 0 "a@x.com" Store.empty).1
      (generateOtp 654321 5000 "a@x.com"
        (generateOtp 123456 0 "a@x.com" Store.empty).2).2).1 ≠
      Outcome.success :=
  ⟨by decide, claim_C5_amended 123456 654321 0 5000 6000 "a@x.com" Store.empty (by decide)⟩

/-- Claim C6: `getRemainingSeconds` returns a non-negative integer that is 0
when no record exists or the record is already expired and otherwise equals
the ceiling of `(60000 - (now - createdAt)) / 1000` (the spec-side formula
`remainingSecondsSpec`), and it returns the store it was given unchanged. -/
theorem claim_C6_remaining_seconds (now : Int) (email : String) (s : Store) :
    0 ≤ (getRemainingSeconds now email s).1 ∧
    (getRemainingSeconds now email s).1 = remainingSecondsSpec now (s.get email) ∧
    (getRemainingSeconds now email s).2 = s := by
  unfold getRemainingSeconds remainingSecondsSpec
  cases hr : Store.get s email with
  | none => exact ⟨le_refl 0, rfl, rfl⟩
  | some r =>
    refine ⟨?_, ?_, rfl⟩
    · show 0 ≤ (if OTP_EXPIRY_MS - (now - r.createdAt) > 0
          then ⌈((OTP_EXPIRY_MS - (now - r.createdAt) : Int) : ℚ) / 1000⌉ else 0)
      split
      · rename_i hpos
        refine Int.ceil_nonneg (div_nonneg ?_ (by norm_num))
        exact_mod_cast le_of_lt hpos
      · exact le_refl 0
    · show (if OTP_EXPIRY_MS - (now - r.createdAt) > 0
          then ⌈((OTP_EXPIRY_MS - (now - r.createdAt) : Int) : ℚ) / 1000⌉ else 0) =
        (if now - r.createdAt > OTP_EXPIRY_MS then 0
          else ⌈((OTP_EXPIRY_MS - (now - r.createdAt) : Int) : ℚ) / 1000⌉)
      by_cases hgt : now - r.createdAt > OTP_EXPIRY_MS
      · rw [if_neg (by omega : ¬ OTP_EXPIRY_MS - (now - r.createdAt) > 0), if_pos hgt]
      · rw [if_neg hgt]
        by_cases hpos : OTP_EXPIRY_MS - (now - r.createdAt) > 0
        · rw [if_pos hpos]
        · rw [if_neg hpos]
          have h0 : OTP_EXPIRY_MS - (now - r.createdAt) = 0 := by omega
          rw [h0]
          norm_num

/-- Claim C7: `validateOtp` is a total function whose outcome always lies in
the five-value taxonomy (success, expired, incorrect, max_attempts, no_otp) —
the embedding returns no other value and models no exception; and for an
existing, unexpired, unlocked record holding a generated code, the empty
candidate string is a plain mismatch: attempts is incremented and the outcome
is `incorrect` (or `max_attempts` on the threshold-crossing attempt). -/
theorem claim_C7_outcome_taxonomy :
    (∀ (now : Int) (email cand : String) (s : Store),
      (validateOtp now email cand s).1 = Outcome.success ∨
      (validateOtp now email cand s).1 = Outcome.expired ∨
      (validateOtp now email cand s).1 = Outcome.incorrect ∨
      (validateOtp now email cand s).1 = Outcome.max_attempts ∨
      (validateOtp now email cand s).1 = Outcome.no_otp) ∧
    (∀ (now : Int) (email : String) (s : Store) (r : OtpRecord) (raw : Nat),
      s.get email = some r → r.code = createRandomCode raw →
      ¬ now - r.createdAt > OTP_EXPIRY_MS → r.attempts < MAX_ATTEMPTS →
      validateOtp now email "" s =
        ((if r.attempts + 1 ≥ MAX_ATTEMPTS then Outcome.max_attempts
          else Outcome.incorrect),
          s.set email ⟨r.code, r.createdAt, r.attempts + 1⟩)) := by
  constructor
  · intro now email cand s
    cases h : (validateOtp now email cand s).1 <;> simp [h]
  · intro now email s r raw h hcode hexp hatt
    have hw : r.code ≠ jsTrim "" := by
      rw [(by decide : jsTrim "" = ""), hcode]
      exact createRandomCode_ne_empty raw
    exact validateOtp_of_wrong now email "" s r h hexp hatt hw

theorem claim_C7_witness :
    ((Store.set Store.empty "a@x.com" ⟨"123456", 0, 0⟩).get "a@x.com" =
        some ⟨"123456", 0, 0⟩ ∧
      ("123456" : String) = createRandomCode 123456 ∧
      ¬ (5000 : Int) - (0 : Int) > OTP_EXPIRY_MS ∧ (0 : Nat) < MAX_ATTEMPTS) ∧
    validateOtp 5000 "a@x.com" ""
        (Store.set Store.empty "a@x.com" ⟨"123456", 0, 0⟩) =
      (Outcome.incorrect,
        Store.set (Store.set Store.empty "a@x.com" ⟨"123456", 0, 0⟩) "a@x.com"
          ⟨"123456", 0, 1⟩) := by
  have h := claim_C7_outcome_taxonomy.2 5000 "a@x.com"
    (Store.set Store.empty "a@x.com" ⟨"123456", 0, 0⟩) ⟨"123456", 0, 0⟩ 123456
    (by decide) (by decide) (by decide) (by decide)
  rw [if_neg (by decide : ¬ 0 + 1 ≥ MAX_ATTEMPTS)] at h
  exact ⟨⟨by decide, by decide, by decide, by decide⟩, h⟩

/-- Claim C8: `startTimer` is idempotent while a periodic task handle exists:
the call — with or without an anchor argument — returns the state unchanged
(anchor intact, no new interval handle) and emits no effect (no persistence
write, no task creation). -/
theorem claim_C8_start_idempotent (now : Int) (persistedStart : Option Int)
    (newHandle : Nat) (st : TimerState) (hrun : st.interval.isSome = true) :
    startTimer now persistedStart newHandle st = (st, []) := by
  unfold startTimer
  rw [if_pos hrun]

theorem claim_C8_witness :
    ((⟨"00:07", some 0, some 1⟩ : TimerState).interval.isSome = true ∧
      startTimer 99000 (some 5000) 2 ⟨"00:07", some 0, some 1⟩ =
        (⟨"00:07", some 0, some 1⟩, []) ∧
      startTimer 99000 none 2 ⟨"00:07", some 0, some 1⟩ =
        (⟨"00:07", some 0, some 1⟩, [])) :=
  ⟨by decide,
    claim_C8_start_idempotent 99000 (some 5000) 2 ⟨"00:07", some 0, some 1⟩ (by decide),
    claim_C8_start_idempotent 99000 none 2 ⟨"00:07", some 0, some 1⟩ (by decide)⟩

/-- Claim C9: for every non-negative elapsed duration in milliseconds,
`formatElapsed` renders minutes and seconds computed from the floor of the
milliseconds to whole seconds, each two-digit zero-padded, joined by ':'
(the spec-side formula `elapsedDisplaySpec`); 65,000 ms displays as "01:05";
and `stopTimer` resets the display to "00:00" and clears the anchor. -/
theorem claim_C9_elapsed_display (ms : Int) (hms : 0 ≤ ms) :
    formatElapsed ms = elapsedDisplaySpec ms.toNat ∧
    formatElapsed 65000 = "01:05" ∧
    (∀ st : TimerState, (stopTimer st).1.elapsed = "00:00" ∧
      (stopTimer st).1.sessionStart = none) := by
  have key : ∀ t : Int, formatElapsed t =
      padStartZero 2 (toString (t / 1000 / 60)) ++ ":" ++
        padStartZero 2 (toString (Int.tmod (t / 1000) 60)) := by
    intro t
    simp only [formatElapsed]
    rw [floor_ratDiv_thousand, floor_ratDiv_sixty]
  refine ⟨?_, ?_, ?_⟩
  · obtain ⟨n, rfl⟩ := Int.eq_ofNat_of_zero_le hms
    rw [key]
    unfold elapsedDisplaySpec
    have hdiv : ((n : ℤ)) / 1000 = ((n / 1000 : ℕ) : ℤ) := by norm_cast
    have hdiv2 : ((n : ℤ)) / 1000 / 60 = ((n / 1000 / 60 : ℕ) : ℤ) := by norm_cast
    have hmod : Int.tmod (((n / 1000 : ℕ) : ℤ)) 60 = ((n / 1000 % 60 : ℕ) : ℤ) := rfl
    rw [hdiv2, hdiv, hmod]
    have hts : ∀ k : Nat, toString ((k : ℕ) : ℤ) = toString k := fun _ => rfl
    rw [hts, hts]
    have htn : ((n : ℤ)).toNat = n := rfl
    rw [htn]
  · rw [key]
    decide
  · intro st
    unfold stopTimer
    cases st.interval <;> exact ⟨rfl, rfl⟩

theorem claim_C9_witness :
    (0 : Int) ≤ 65000 ∧ formatElapsed 65000 = elapsedDisplaySpec 65000 ∧
      formatElapsed 65000 = "01:05" ∧
      (stopTimer ⟨"01:05", some 0, some 1⟩).1.elapsed = "00:00" ∧
      (stopTimer ⟨"01:05", some 0, some 1⟩).1.sessionStart = none := by
  have h := claim_C9_elapsed_display 65000 (by decide)
  exact ⟨by decide, h.1, h.2.1, (h.2.2 ⟨"01:05", some 0, some 1⟩).1,
    (h.2.2 ⟨"01:05", some 0, some 1⟩).2⟩

/-- Claim C10: the invariant that every stored record has 0 ≤ attempts ≤ 3
is preserved by every public operation: `generateOtp` (initialises attempts
to 0), `validateOtp` (increments only when attempts < 3), `clearOtp`, and the
two read-only getters, which return the store unchanged. -/
theorem claim_C10_attempts_invariant (s : Store) (hs : StoreInv s) :
    (∀ (raw : Nat) (now : Int) (email : String),
      StoreInv (generateOtp raw now email s).2) ∧
    (∀ (now : Int) (email cand : String),
      StoreInv (validateOtp now email cand s).2) ∧
    (∀ email, StoreInv (clearOtp email s)) ∧
    (∀ (now : Int) (email : String), (getRemainingSeconds now email s).2 = s) ∧
    (∀ email, (getRemainingAttempts email s).2 = s) := by
  have hset : ∀ (email : String) (r : OtpRecord), r.attempts ≤ MAX_ATTEMPTS →
      StoreInv (s.set email r) := by
    intro email r hr e r2 h2
    simp only [Store.set, Store.get] at h2
    by_cases he : e = email
    · rw [if_pos he] at h2
      cases h2
      exact ⟨Nat.zero_le _, hr⟩
    · rw [if_neg he] at h2
      exact hs e r2 h2
  have hdel : ∀ email : String, StoreInv (s.del email) := by
    intro email e r2 h2
    simp only [Store.del, Store.get] at h2
    by_cases he : e = email
    · rw [if_pos he] at h2
      cases h2
    · rw [if_neg he] at h2
      exact hs e r2 h2
  refine ⟨?_, ?_, ?_, ?_, ?_⟩
  · intro raw now email
    exact hset email _ (Nat.zero_le _)
  · intro now email cand
    unfold validateOtp
    cases h : Store.get s email with
    | none => exact hs
    | some r =>
      dsimp only
      split
      · exact hdel email
      · split
        · exact hs
        · rename_i hnotlocked
          split
          · split
            · refine hset email _ ?_
              show r.attempts + 1 ≤ MAX_ATTEMPTS
              omega
            · refine hset email _ ?_
              show r.attempts + 1 ≤ MAX_ATTEMPTS
              omega
          · exact hdel email
  · intro email
    exact hdel email
  · intro now email
    unfold getRemainingSeconds
    cases h : Store.get s email <;> rfl
  · intro email
    unfold getRemainingAttempts
    cases h : Store.get s email <;> rfl

theorem claim_C10_witness :
    StoreInv Store.empty ∧
    StoreInv (generateOtp 123456 0 "a@x.com" Store.empty).2 ∧
    StoreInv (validateOtp 0 "a@x.com" "000000" Store.empty).2 ∧
    StoreInv (clearOtp "a@x.com" Store.empty) ∧
    (getRemainingSeconds 0 "a@x.com" Store.empty).2 = Store.empty ∧
    (getRemainingAttempts "a@x.com" Store.empty).2 = Store.empty := by
  have hinv : StoreInv Store.empty := by
    intro e r h
    cases h
  have h := claim_C10_attempts_invariant Store.empty hinv
  exact ⟨hinv, h.1 123456 0 "a@x.com", h.2.1 0 "a@x.com" "000000",
    h.2.2.1 "a@x.com", h.2.2.2.1 0 "a@x.com", h.2.2.2.2 "a@x.com"⟩

end SecureOTP
